import Mathlib

/-!
Verification of the rootfs-assembly and signal-delivery core of the runh
container runtime (src/rootfs.rs, src/kill.rs), as a shallow embedding.

Paths are modelled as lists of components (`List String`), all absolute:
the leading `RootDir` component of a Rust `PathBuf` is absorbed into the
representation, so the host root `/` is `[]` and `/rootfs/etc` is
`["rootfs", "etc"]`.  The filesystem syscalls `Path::exists` and
`Path::canonicalize` are opaque to the program, so they are modelled as a
record of oracle functions (`FileSys`); `canonicalize` returning `none`
models the syscall failing (the Rust code calls `.expect` on it).
-/

namespace Runh

/-- The filesystem as seen through the two syscalls `resolve_in_rootfs`
uses: `ex p` is `Path::exists` and `canon p` is `Path::canonicalize`
(`none` = the canonicalize syscall fails). -/
structure FileSys where
  ex : List String → Bool
  canon : List String → Option (List String)

/-- Split a character list at every `/`, keeping empty groups, mirroring
how a Rust path string breaks into slash-separated fragments. -/
def splitSlash : List Char → List (List Char)
  | [] => [[]]
  | c :: rest =>
    if c == '/' then [] :: splitSlash rest
    else
      match splitSlash rest with
      | [] => [[c]]
      | g :: gs => (c :: g) :: gs

/-- Keep a slash-separated fragment as a path component:
`Path::components` drops empty fragments (from repeated or leading
slashes) and `.` fragments. -/
def compKeep (g : List Char) : Option String :=
  if g.isEmpty || g == ['.'] then none else some (String.mk g)

/-- Path components of a character list. -/
def parseCompsList (l : List Char) : List String :=
  (splitSlash l).filterMap compKeep

/-- Path components of a string, as `Path::components` yields them. -/
def parseComponents (s : String) : List String :=
  parseCompsList s.data

/-- `str::trim_start_matches("/")`: remove every leading `/`. -/
def trimStartSlashes (s : String) : String :=
  String.mk (s.data.dropWhile (fun c => c == '/'))

/-- Whether the path string is absolute (`Path::is_absolute` on Linux:
starts with `/`). -/
def startsWithSlash (s : String) : Bool :=
  match s.data with
  | [] => false
  | c :: _ => c == '/'

/-- `PathBuf::join`: an absolute right-hand side replaces the base path,
a relative one is appended. -/
def pathJoin (base : List String) (s : String) : List String :=
  if startsWithSlash s then parseComponents s else base ++ parseComponents s

/-- The component-by-component walk of `resolve_in_rootfs`
(src/rootfs.rs lines 15-22): push the next component of the joined
destination onto the accumulator; whenever the accumulated path exists,
replace it by its canonicalization (failure of the canonicalize syscall
aborts, modelled as `none`). -/
def resolveLoop (fs : FileSys) : List String → List String → Option (List String)
  | acc, [] => some acc
  | acc, c :: rest =>
    let acc' := acc ++ [c]
    if fs.ex acc' then
      match fs.canon acc' with
      | some r => resolveLoop fs r rest
      | none => none
    else
      resolveLoop fs acc' rest

/-- `resolve_in_rootfs` (src/rootfs.rs lines 10-24): join the
destination, with its leading slashes trimmed, under the rootfs
directory, then walk it with `resolveLoop`. -/
def resolve_in_rootfs (fs : FileSys) (destination_rel : String) (rootfs : List String) :
    Option (List String) :=
  resolveLoop fs [] (pathJoin rootfs (trimStartSlashes destination_rel))

/-- `root.isPrefixOf p`: the path `p` lies inside the directory `root`. -/
def underRoot (root p : List String) : Bool :=
  root.isPrefixOf p

/-- A concrete filesystem realizable on disk as: directory `/rootfs`
containing a single entry `link`, a symlink to `/etc`, and `/etc`
containing `passwd`.  `exists` follows symlinks, so `/rootfs/link`
exists (its target `/etc` does), and canonicalizing `/rootfs/link`
yields `/etc`. -/
def fsLink : FileSys where
  ex p :=
    p == ([] : List String) || p == ["rootfs"] || p == ["rootfs", "link"] ||
      p == ["etc"] || p == ["etc", "passwd"]
  canon p := if p == ["rootfs", "link"] then some ["etc"] else some p

/-!
Signal delivery (src/kill.rs).  A run of `kill_container` either panics
(modelled as `Except.error`, one constructor per panic site) or reaches
the final `nix::sys::signal::kill(pid, signal)` syscall, modelled as
`Except.ok (pid, signal)`: the pair records which signal would be
delivered to which process id.
-/

/-- The ways `kill_container` aborts before delivering a signal.
`unwrapNone` is a bare `Option::unwrap()` panic (used for the missing
container id and the missing pid, src/kill.rs lines 7 and 17), carrying
no designated error of its own; the remaining constructors are the
explicit `panic!` and `unimplemented!` sites. -/
inductive KillErr where
  /-- panic "Could not query state for container ..." (line 8) -/
  | stateNotFound
  /-- panic "Cannot send signals to non-running containers!" (line 10) -/
  | invalidStatus
  /-- unimplemented "Sending signals to all container processes ..." (line 14) -/
  | notImplemented
  /-- a bare `Option::unwrap()` on `None` (lines 7 and 17) -/
  | unwrapNone
  /-- panic "Could not parse signal number/string ..." (lines 20 and 28) -/
  | signalParse
  deriving DecidableEq

/-- The record returned by the external state store
(`state::get_container_state`). -/
structure ContainerState where
  id : String
  status : String
  pid : Option Int
  deriving DecidableEq

/-- The Linux signal table of `nix::sys::signal::Signal`, keyed by the
bare (prefixless) name; a resolved signal is its kernel number. -/
def sigSpecs : List (String × Int) :=
  [("HUP", 1), ("INT", 2), ("QUIT", 3), ("ILL", 4), ("TRAP", 5), ("ABRT", 6),
   ("BUS", 7), ("FPE", 8), ("KILL", 9), ("USR1", 10), ("SEGV", 11),
   ("USR2", 12), ("PIPE", 13), ("ALRM", 14), ("TERM", 15), ("STKFLT", 16),
   ("CHLD", 17), ("CONT", 18), ("STOP", 19), ("TSTP", 20), ("TTIN", 21),
   ("TTOU", 22), ("URG", 23), ("XCPU", 24), ("XFSZ", 25), ("VTALRM", 26),
   ("PROF", 27), ("WINCH", 28), ("IO", 29), ("PWR", 30), ("SYS", 31)]

/-- The same table keyed by the full symbolic name, exactly as
`Signal::from_str` matches it (case-sensitive). -/
def signalNames : List (String × Int) :=
  sigSpecs.map fun p => ("SIG" ++ p.1, p.2)

/-- First value in an association list whose key equals `s`. -/
def lookupName : List (String × Int) → String → Option Int
  | [], _ => none
  | p :: rest, s => if p.1 = s then some p.2 else lookupName rest s

/-- Accumulate decimal digits; any non-digit character fails the parse. -/
def digitsToNat (acc : Nat) : List Char → Option Nat
  | [] => some acc
  | c :: cs => if c.isDigit then digitsToNat (acc * 10 + (c.toNat - 48)) cs else none

/-- One or more decimal digits, as a natural number. -/
def parseDigits : List Char → Option Nat
  | [] => none
  | cs => digitsToNat 0 cs

/-- Rust `str::parse::<i32>`: an optional sign followed by at least one
decimal digit, within the `i32` range. -/
def parseI32 (s : String) : Option Int :=
  match s.data with
  | '+' :: rest =>
    (parseDigits rest).bind fun n =>
      if n ≤ 2147483647 then some (Int.ofNat n) else none
  | '-' :: rest =>
    (parseDigits rest).bind fun n =>
      if n ≤ 2147483648 then some (-(Int.ofNat n)) else none
  | cs =>
    (parseDigits cs).bind fun n =>
      if n ≤ 2147483647 then some (Int.ofNat n) else none

/-- `Signal::try_from(i32)`: succeeds exactly on the numbers of known
signals. -/
def sigTryFrom (n : Int) : Option Int :=
  if signalNames.any (fun p => p.2 == n) then some n else none

/-- `Signal::from_str`: case-sensitive lookup in the platform signal
name table. -/
def sigFromStr (s : String) : Option Int :=
  lookupName signalNames s

/-- `str::starts_with("SIG")`. -/
def startsWithSIG (s : String) : Bool :=
  match s.data with
  | 'S' :: 'I' :: 'G' :: _ => true
  | _ => false

/-- Signal resolution, src/kill.rs lines 18-29: if the spec parses as an
`i32`, convert the number (panicking if it is no known signal);
otherwise prepend `SIG` when the spec does not already start with it and
look the name up in the signal table (panicking if absent). -/
def resolveSignal (sig : String) : Except KillErr Int :=
  match parseI32 sig with
  | some sig_nr =>
    match sigTryFrom sig_nr with
    | some s => .ok s
    | none => .error .signalParse
  | none =>
    let signal_str := if !(startsWithSIG sig) then "SIG" ++ sig else sig
    match sigFromStr signal_str with
    | some s => .ok s
    | none => .error .signalParse

/-- `kill_container` (src/kill.rs lines 6-39).  The external state store
is the function `store`; the returned `.ok (pid, signal)` is the
argument pair of the final `nix::sys::signal::kill` syscall, and every
`.error` is a panic reached before that syscall. -/
def kill_container (store : String → Option ContainerState) (id : Option String)
    (sig : Option String) (all : Bool) : Except KillErr (Int × Int) :=
  match id with
  | none => .error .unwrapNone
  | some i =>
    match store i with
    | none => .error .stateNotFound
    | some container_state =>
      if container_state.status ≠ "created" ∧ container_state.status ≠ "running" then
        .error .invalidStatus
      else if all then
        .error .notImplemented
      else
        match container_state.pid with
        | none => .error .unwrapNone
        | some pid =>
          match sig with
          | none => .error .unwrapNone
          | some s =>
            match resolveSignal s with
            | .error e => .error e
            | .ok signal => .ok (pid, signal)

/-- `true` iff the run reached signal delivery and resolved this signal
number. -/
def isOkWith (e : Except KillErr Int) (v : Int) : Bool :=
  match e with
  | .ok x => x == v
  | .error _ => false

/-!
Rootfs mounting (src/rootfs.rs, `mount_rootfs` and `pivot_root`).
`MsFlags` bit sets are modelled as lists of flags in insertion order;
each mutating syscall the code issues is recorded as a value, so a run
of `mount_rootfs` yields the ordered list of mount syscalls it performs,
and a run of `pivot_root` yields the ordered trace of attempted steps.
-/

/-- The `nix::mount::MsFlags` bits used by this code. -/
inductive MsFlag where
  | MS_REC
  | MS_SHARED
  | MS_SLAVE
  | MS_PRIVATE
  | MS_UNBINDABLE
  | MS_BIND
  deriving DecidableEq

/-- The ways `mount_rootfs` aborts before its first mount syscall:
`spec.linux` being absent (a bare `unwrap` panic) or an unrecognized
`rootfsPropagation` string (the explicit `panic!`, carrying the given
value). -/
inductive MountErr where
  | unwrapNone
  | configError (given : String)
  deriving DecidableEq

/-- One `nix::mount::mount` syscall: source, target, filesystem type and
flag set (in insertion order). -/
structure MountCall where
  source : Option String
  target : String
  fstype : Option String
  flags : List MsFlag
  deriving DecidableEq

/-- The `linux` table of the runtime spec, restricted to the one field
this code reads. -/
structure Linux where
  rootfs_propagation : Option String
  deriving DecidableEq

/-- The runtime spec (`oci_spec::runtime::Spec`), restricted to the
fields this code reads. -/
structure Spec where
  linux : Option Linux
  deriving DecidableEq

/-- The `match` on `rootfs_propagation` in src/rootfs.rs lines 30-53:
the four known strings map to their flag, absence defaults to
`MS_SLAVE`, anything else panics. -/
def propagationFlag (o : Option String) : Except MountErr MsFlag :=
  match o with
  | none => .ok .MS_SLAVE
  | some s =>
    if s = "shared" then .ok .MS_SHARED
    else if s = "slave" then .ok .MS_SLAVE
    else if s = "private" then .ok .MS_PRIVATE
    else if s = "unbindable" then .ok .MS_UNBINDABLE
    else .error (.configError s)

/-- `mount_rootfs` (src/rootfs.rs lines 26-79): derive the propagation
flag (panicking on an absent `linux` table or an unknown string before
any syscall), then issue the recursive propagation remount of `/`
followed by the recursive bind-mount of the rootfs onto itself.  The
`.ok` value lists those two mount syscalls in order. -/
def mount_rootfs (spec : Spec) (rootfs_path : String) : Except MountErr (List MountCall) :=
  match spec.linux with
  | none => .error .unwrapNone
  | some lin =>
    match propagationFlag lin.rootfs_propagation with
    | .error e => .error e
    | .ok flag =>
      .ok [⟨none, "/", none, [.MS_REC, flag]⟩,
           ⟨some rootfs_path, rootfs_path, some "bind", [.MS_BIND, .MS_REC]⟩]

/-- One step of the `pivot_root` sequence (src/rootfs.rs lines 90-122),
with the arguments the code passes.  The two directory handles are
identified by which open they came from (`fchdirNewRoot` /
`fchdirOldRoot`). -/
inductive PivotStep where
  /-- `OpenOptions::open` with `O_DIRECTORY` on this path -/
  | openDir (path : String)
  | fchdirNewRoot
  | fchdirOldRoot
  /-- `nix::unistd::pivot_root(new_root, put_old)` -/
  | pivotSyscall (new_root put_old : String)
  /-- `nix::mount::mount(None, target, None, flags, None)` -/
  | mountStep (target : String) (flags : List MsFlag)
  /-- `nix::mount::umount2(target, MNT_DETACH)` -/
  | umountDetach (target : String)
  | chdirStep (path : String)
  deriving DecidableEq

/-- Run steps in order, aborting at the first failure: the result lists
every attempted step (the failed one included) and whether the whole
sequence succeeded. -/
def runSteps (ok : PivotStep → Bool) : List PivotStep → List PivotStep × Bool
  | [] => ([], true)
  | s :: rest =>
    if ok s then (s :: (runSteps ok rest).1, (runSteps ok rest).2)
    else ([s], false)

/-- `pivot_root` (src/rootfs.rs lines 90-122), transcribed call by call:
each syscall's success is decided by the oracle `ok`, each `.expect`
panic aborts the rest, and the result is the trace of attempted steps
paired with overall success. -/
def pivot_root (ok : PivotStep → Bool) (rootfs : String) : List PivotStep × Bool :=
  if ok (.openDir "/") then
    if ok (.openDir rootfs) then
      if ok .fchdirNewRoot then
        if ok (.pivotSyscall "." ".") then
          if ok .fchdirOldRoot then
            if ok (.mountStep "." [.MS_SLAVE, .MS_REC]) then
              if ok (.umountDetach ".") then
                if ok (.chdirStep "/") then
                  ([.openDir "/", .openDir rootfs, .fchdirNewRoot,
                    .pivotSyscall "." ".", .fchdirOldRoot,
                    .mountStep "." [.MS_SLAVE, .MS_REC], .umountDetach ".",
                    .chdirStep "/"], true)
                else
                  ([.openDir "/", .openDir rootfs, .fchdirNewRoot,
                    .pivotSyscall "." ".", .fchdirOldRoot,
                    .mountStep "." [.MS_SLAVE, .MS_REC], .umountDetach ".",
                    .chdirStep "/"], false)
              else
                ([.openDir "/", .openDir rootfs, .fchdirNewRoot,
                  .pivotSyscall "." ".", .fchdirOldRoot,
                  .mountStep "." [.MS_SLAVE, .MS_REC], .umountDetach "."], false)
            else
              ([.openDir "/", .openDir rootfs, .fchdirNewRoot,
                .pivotSyscall "." ".", .fchdirOldRoot,
                .mountStep "." [.MS_SLAVE, .MS_REC]], false)
          else
            ([.openDir "/", .openDir rootfs, .fchdirNewRoot,
              .pivotSyscall "." ".", .fchdirOldRoot], false)
        else
          ([.openDir "/", .openDir rootfs, .fchdirNewRoot,
            .pivotSyscall "." "."], false)
      else
        ([.openDir "/", .openDir rootfs, .fchdirNewRoot], false)
    else
      ([.openDir "/", .openDir rootfs], false)
  else
    ([.openDir "/"], false)

/-- A concrete filesystem on which only `/` and `/rootfs` exist and
nothing is a symlink (canonicalization is the identity). -/
def fsW : FileSys where
  ex p := p == ([] : List String) || p == ["rootfs"]
  canon p := some p

deriving instance DecidableEq for Except

/-!
Helper lemmas about path parsing and the resolution walk.
-/

/-- Dropping leading slashes does not change the parsed components
(leading slashes only contribute empty fragments, which are dropped). -/
theorem parseCompsList_dropWhile (l : List Char) :
    parseCompsList (l.dropWhile (fun c => c == '/')) = parseCompsList l := by
  induction l with
  | nil => rfl
  | cons c cs ih =>
    by_cases h : (c == '/') = true
    · rw [List.dropWhile_cons, if_pos h, ih]
      simp [parseCompsList, splitSlash, h, compKeep]
    · rw [List.dropWhile_cons, if_neg h]

/-- A trimmed destination string never starts with a slash. -/
theorem trim_no_slash (s : String) : startsWithSlash (trimStartSlashes s) = false := by
  show startsWithSlash (String.mk (s.data.dropWhile (fun c => c == '/'))) = false
  induction s.data with
  | nil => rfl
  | cons c cs ih =>
    by_cases h : (c == '/') = true
    · rw [List.dropWhile_cons, if_pos h]
      exact ih
    · rw [List.dropWhile_cons, if_neg h]
      simpa [startsWithSlash] using h

/-- Trimming leading slashes is idempotent. -/
theorem trim_trim (s : String) :
    trimStartSlashes (trimStartSlashes s) = trimStartSlashes s := by
  show String.mk ((s.data.dropWhile (fun c => c == '/')).dropWhile (fun c => c == '/')) = _
  rw [List.dropWhile_idempotent]
  rfl

/-- The resolution walk splits over an append of component lists. -/
theorem resolveLoop_append (fs : FileSys) (l1 l2 : List String) (acc : List String) :
    resolveLoop fs acc (l1 ++ l2) =
      (resolveLoop fs acc l1).bind (fun r => resolveLoop fs r l2) := by
  induction l1 generalizing acc with
  | nil => simp [resolveLoop]
  | cons c cs ih =>
    simp only [List.cons_append, resolveLoop]
    by_cases h : fs.ex (acc ++ [c]) = true
    · simp only [h, if_pos]
      cases hc : fs.canon (acc ++ [c]) with
      | none => simp
      | some r => simp [ih]
    · simp only [Bool.not_eq_true] at h
      simp only [h, Bool.false_eq_true, if_false]
      exact ih (acc ++ [c])

/-- Once the accumulated path stops existing, the remaining components
are appended unchanged (for a filesystem where extending a non-existent
path never yields an existing one). -/
theorem resolveLoop_nonexistent (fs : FileSys)
    (hfs : ∀ p x, fs.ex p = false → fs.ex (p ++ [x]) = false) :
    ∀ rest acc c, fs.ex (acc ++ [c]) = false →
      resolveLoop fs acc (c :: rest) = some (acc ++ c :: rest) := by
  intro rest
  induction rest with
  | nil =>
    intro acc c h
    simp [resolveLoop, h]
  | cons c' rest' ih =>
    intro acc c h
    have h' : fs.ex ((acc ++ [c]) ++ [c']) = false := hfs _ _ h
    have hIH := ih (acc ++ [c]) c' h'
    simp only [resolveLoop, h, Bool.false_eq_true, if_false]
    simp only [resolveLoop] at hIH
    rw [hIH]
    simp

/-- On `fsW`, a path that does not exist has no existing extension. -/
theorem fsW_closed : ∀ p x, fsW.ex p = false → fsW.ex (p ++ [x]) = false := by
  intro p x h
  cases p with
  | nil => simp [fsW] at h
  | cons a as =>
    show ((a :: (as ++ [x])) == ([] : List String) || (a :: (as ++ [x])) == ["rootfs"]) = false
    simp [List.append_eq_nil]

/-!
Claim theorems.
-/

/-- Claim C1: the claim states that `resolve_in_rootfs` never returns a
path outside the given root when the destination contains a symlink
component that exists on disk and targets a location outside the root.
The code violates this: on the concrete filesystem `fsLink` (directory
`/rootfs` whose entry `link` is a symlink to `/etc`), resolving the
destination `link/passwd` under root `/rootfs` returns `/etc/passwd`,
which does not lie under `/rootfs` — the function canonicalizes each
existing prefix but never checks the canonical path against the root,
contradicting its own source comment. -/
theorem c1_symlink_escape :
    resolve_in_rootfs fsLink "link/passwd" ["rootfs"] = some ["etc", "passwd"] ∧
    underRoot ["rootfs"] ["etc", "passwd"] = false :=
  ⟨rfl, rfl⟩

/-- Claim C2 counterexample: the claim states that `kill_container`
with `all = true` fails with NotImplementedError regardless of the
container's status.  On a container whose status is `stopped` it
instead fails with InvalidContainerStatusError, because the status
check precedes the `all` check. -/
theorem c2_counterexample :
    kill_container (fun _ => some ⟨"abc", "stopped", some 4242⟩) (some "abc") (some "9") true =
      .error .invalidStatus ∧
    kill_container (fun _ => some ⟨"abc", "stopped", some 4242⟩) (some "abc") (some "9") true ≠
      .error .notImplemented := by
  refine ⟨rfl, ?_⟩
  decide

/-- Claim C2 (amended): for every container state with a signalable
status (`created` or `running`), `kill_container` with `all = true`
fails with NotImplementedError; and with `all = true` no signal is ever
delivered, whatever the store, id, signal spec or status (a
non-signalable status merely fails earlier, with
InvalidContainerStatusError). -/
theorem c2_all_unimplemented :
    (∀ (store : String → Option ContainerState) (i : String) (st : ContainerState)
        (sig : Option String), store i = some st →
        (st.status = "created" ∨ st.status = "running") →
        kill_container store (some i) sig true = .error .notImplemented) ∧
    (∀ (store : String → Option ContainerState) (id sig : Option String)
        (r : Int × Int), kill_container store id sig true ≠ .ok r) := by
  constructor
  · intro store i st sig hstore hstatus
    rcases hstatus with h | h <;> simp [kill_container, hstore, h]
  · intro store id sig r h
    rcases id with _ | i
    · simp [kill_container] at h
    · rcases hs : store i with _ | st
      · simp [kill_container, hs] at h
      · simp only [kill_container, hs] at h
        by_cases hst : st.status ≠ "created" ∧ st.status ≠ "running"
        · rw [if_pos hst] at h
          exact Except.noConfusion h
        · rw [if_neg hst] at h
          simp at h

/-- Claim C2 witness: a created container with `all = true` concretely
fails with NotImplementedError. -/
theorem c2_witness :
    kill_container (fun _ => some ⟨"abc", "created", some 4242⟩) (some "abc") (some "9") true =
      .error .notImplemented :=
  c2_all_unimplemented.1 _ "abc" ⟨"abc", "created", some 4242⟩ (some "9") rfl (Or.inl rfl)

/-- Claim C3: `mount_rootfs` maps an absent propagation field to Slave
and the four known strings to their matching flag, each combined with
the recursive flag in the first mount syscall of its two-syscall
sequence; any other string fails with ConfigError, in which case no
mount syscall is issued (the `.error` result carries no syscall
list). -/
theorem c3_propagation (sp : Spec) (lin : Linux) (p : String)
    (h : sp.linux = some lin) :
    (lin.rootfs_propagation = none →
      mount_rootfs sp p = .ok [⟨none, "/", none, [.MS_REC, .MS_SLAVE]⟩,
        ⟨some p, p, some "bind", [.MS_BIND, .MS_REC]⟩]) ∧
    (lin.rootfs_propagation = some "shared" →
      mount_rootfs sp p = .ok [⟨none, "/", none, [.MS_REC, .MS_SHARED]⟩,
        ⟨some p, p, some "bind", [.MS_BIND, .MS_REC]⟩]) ∧
    (lin.rootfs_propagation = some "slave" →
      mount_rootfs sp p = .ok [⟨none, "/", none, [.MS_REC, .MS_SLAVE]⟩,
        ⟨some p, p, some "bind", [.MS_BIND, .MS_REC]⟩]) ∧
    (lin.rootfs_propagation = some "private" →
      mount_rootfs sp p = .ok [⟨none, "/", none, [.MS_REC, .MS_PRIVATE]⟩,
        ⟨some p, p, some "bind", [.MS_BIND, .MS_REC]⟩]) ∧
    (lin.rootfs_propagation = some "unbindable" →
      mount_rootfs sp p = .ok [⟨none, "/", none, [.MS_REC, .MS_UNBINDABLE]⟩,
        ⟨some p, p, some "bind", [.MS_BIND, .MS_REC]⟩]) ∧
    (∀ s, lin.rootfs_propagation = some s → s ≠ "shared" → s ≠ "slave" →
      s ≠ "private" → s ≠ "unbindable" →
      mount_rootfs sp p = .error (.configError s)) := by
  refine ⟨fun hp => by simp [mount_rootfs, h, hp, propagationFlag],
    fun hp => by simp [mount_rootfs, h, hp, propagationFlag],
    fun hp => by simp [mount_rootfs, h, hp, propagationFlag],
    fun hp => by simp [mount_rootfs, h, hp, propagationFlag],
    fun hp => by simp [mount_rootfs, h, hp, propagationFlag],
    fun s hp h1 h2 h3 h4 => by
      simp [mount_rootfs, h, hp, propagationFlag, h1, h2, h3, h4]⟩

/-- Claim C3 witness: a spec with an absent propagation field concretely
selects Slave (with the recursive flag) for the remount of `/`. -/
theorem c3_witness :
    mount_rootfs ⟨some ⟨none⟩⟩ "/r" = .ok [⟨none, "/", none, [.MS_REC, .MS_SLAVE]⟩,
      ⟨some "/r", "/r", some "bind", [.MS_BIND, .MS_REC]⟩] :=
  (c3_propagation ⟨some ⟨none⟩⟩ ⟨none⟩ "/r" rfl).1 rfl

/-- Claim C4: for every rootfs directory and every outcome of the
individual syscalls, `pivot_root` attempts exactly these steps in this
order — open `/`, open the new root, fchdir to the new root, kernel
pivot_root with the current directory (`"."`) as both arguments, fchdir
to the old root, recursive Slave remount of the current directory, lazy
detach-unmount of the current directory, chdir to `/` — aborting at the
first failing step with no later step attempted (`runSteps`
semantics). -/
theorem c4_pivot_sequence (ok : PivotStep → Bool) (rootfs : String) :
    pivot_root ok rootfs = runSteps ok
      [.openDir "/", .openDir rootfs, .fchdirNewRoot, .pivotSyscall "." ".",
       .fchdirOldRoot, .mountStep "." [.MS_SLAVE, .MS_REC], .umountDetach ".",
       .chdirStep "/"] := by
  cases h1 : ok (.openDir "/") <;>
  cases h2 : ok (.openDir rootfs) <;>
  cases h3 : ok .fchdirNewRoot <;>
  cases h4 : ok (.pivotSyscall "." ".") <;>
  cases h5 : ok .fchdirOldRoot <;>
  cases h6 : ok (.mountStep "." [.MS_SLAVE, .MS_REC]) <;>
  cases h7 : ok (.umountDetach ".") <;>
  cases h8 : ok (.chdirStep "/") <;>
  simp [pivot_root, runSteps, h1, h2, h3, h4, h5, h6, h7, h8]

/-- Claim C5: `"9"`, `"KILL"` and `"SIGKILL"` all resolve to the same
signal value (SIGKILL = 9); and in general, for every entry of the
signal table, the prefixed symbolic form, the unprefixed symbolic form
and the numeric form all resolve to that entry's signal number. -/
theorem c5_signal_forms :
    resolveSignal "9" = .ok 9 ∧ resolveSignal "KILL" = .ok 9 ∧
    resolveSignal "SIGKILL" = .ok 9 ∧
    (sigSpecs.all fun p =>
      isOkWith (resolveSignal ("SIG" ++ p.1)) p.2 &&
      isOkWith (resolveSignal p.1) p.2 &&
      isOkWith (resolveSignal (toString p.2)) p.2) = true :=
  ⟨rfl, rfl, rfl, rfl⟩

/-- Claim C6: a container whose status is neither `created` nor
`running` makes `kill_container` fail with InvalidContainerStatusError
for every signal spec and every value of `all`; the `.error` result
means the signal-delivery syscall is never reached. -/
theorem c6_invalid_status (store : String → Option ContainerState) (i : String)
    (st : ContainerState) (sig : Option String) (all : Bool)
    (hstore : store i = some st)
    (h1 : st.status ≠ "created") (h2 : st.status ≠ "running") :
    kill_container store (some i) sig all = .error .invalidStatus := by
  simp [kill_container, hstore, h1, h2]

/-- Claim C6 witness: a stopped container concretely fails with
InvalidContainerStatusError. -/
theorem c6_witness :
    kill_container (fun _ => some ⟨"abc", "stopped", some 4242⟩) (some "abc") (some "9") false =
      .error .invalidStatus :=
  c6_invalid_status _ "abc" ⟨"abc", "stopped", some 4242⟩ (some "9") false rfl
    (by decide) (by decide)

/-- Claim C7: with a signalable status, `all = false` and no recorded
pid, `kill_container` fails at the bare pid `Option::unwrap` — the
`unwrapNone` panic, not one of the designated errors — and it does so
for every signal spec (even an absent or unparseable one), showing the
failure happens before any signal is resolved or delivered. -/
theorem c7_pid_unwrap (store : String → Option ContainerState) (i : String)
    (st : ContainerState) (sig : Option String)
    (hstore : store i = some st)
    (hstatus : st.status = "created" ∨ st.status = "running")
    (hpid : st.pid = none) :
    kill_container store (some i) sig false = .error .unwrapNone := by
  rcases hstatus with h | h <;> simp [kill_container, hstore, h, hpid]

/-- Claim C7 witness: a created container with no pid concretely fails
with the bare unwrap panic. -/
theorem c7_witness :
    kill_container (fun _ => some ⟨"abc", "created", none⟩) (some "abc") (some "9") false =
      .error .unwrapNone :=
  c7_pid_unwrap _ "abc" ⟨"abc", "created", none⟩ (some "9") rfl (Or.inl rfl) rfl

/-- Claim C8: when the walked destination splits into an existing
prefix and a first component that no longer exists on top of the
resolved prefix (on a filesystem where extending a non-existent path
never yields an existing one), resolution succeeds and returns the
resolved existing prefix with the non-existent suffix appended
unchanged. -/
theorem c8_nonexistent_suffix (fs : FileSys) (root : List String) (d : String)
    (pre : List String) (c : String) (rest : List String) (r : List String)
    (hfs : ∀ p x, fs.ex p = false → fs.ex (p ++ [x]) = false)
    (hsplit : pathJoin root (trimStartSlashes d) = pre ++ c :: rest)
    (hpre : resolveLoop fs [] pre = some r)
    (hne : fs.ex (r ++ [c]) = false) :
    resolve_in_rootfs fs d root = some (r ++ c :: rest) := by
  unfold resolve_in_rootfs
  rw [hsplit, resolveLoop_append, hpre]
  simpa using resolveLoop_nonexistent fs hfs rest r c hne

/-- Claim C8 witness: on `fsW` (only `/rootfs` exists), resolving
`a/b` under `/rootfs` succeeds and passes the non-existent suffix
`a/b` through unchanged. -/
theorem c8_witness :
    resolve_in_rootfs fsW "a/b" ["rootfs"] = some ["rootfs", "a", "b"] :=
  c8_nonexistent_suffix fsW ["rootfs"] "a/b" ["rootfs"] "a" ["b"] ["rootfs"]
    fsW_closed (by decide) (by decide) (by decide)

/-- Claim C9: `resolveSignal` fails (always with SignalParseError)
exactly when the input is invalid: either it parses as an integer that
is no known signal number, or it does not parse as an integer and its
`SIG`-prefixed form (prepended only when not already present) is absent
from the case-sensitive signal name table; concretely, `"notasignal"`
fails. -/
theorem c9_parse_errors :
    (∀ s : String,
      resolveSignal s = .error .signalParse ↔
        ((∃ n, parseI32 s = some n ∧ sigTryFrom n = none) ∨
         (parseI32 s = none ∧
           sigFromStr (if !(startsWithSIG s) then "SIG" ++ s else s) = none))) ∧
    resolveSignal "notasignal" = .error .signalParse := by
  constructor
  · intro s
    unfold resolveSignal
    rcases hp : parseI32 s with _ | n
    · simp only [hp]
      rcases hl : sigFromStr (if !(startsWithSIG s) then "SIG" ++ s else s) with _ | v <;>
        simp [hp, hl]
    · simp only [hp]
      rcases ht : sigTryFrom n with _ | v <;> simp [hp, ht]
  · rfl

/-- Claim C10: for every destination string, filesystem and root,
resolving the destination equals resolving it with all leading slashes
removed, and the joined path the walk starts from is the root followed
by the destination's components — so an absolute destination such as
`/proc` is interpreted relative to the rootfs directory, never at the
host root. -/
theorem c10_leading_slashes (fs : FileSys) (d : String) (root : List String) :
    resolve_in_rootfs fs d root = resolve_in_rootfs fs (trimStartSlashes d) root ∧
    pathJoin root (trimStartSlashes d) = root ++ parseComponents d := by
  have h2 : startsWithSlash (trimStartSlashes d) = false := trim_no_slash d
  constructor
  · unfold resolve_in_rootfs
    rw [trim_trim]
  · unfold pathJoin
    rw [h2]
    simp only [Bool.false_eq_true, if_false]
    congr 1
    show parseCompsList (d.data.dropWhile (fun c => c == '/')) = parseCompsList d.data
    exact parseCompsList_dropWhile d.data

end Runh
